import Mathlib

/-!
A shallow embedding of the Examnyx OMR blockchain system
(`src/blockchain_part`, `src/omr-evaluator`), written to settle the frozen
claims about its specification.

Modelling conventions:
* SHA-256 and the JSON serialisation feeding it are modelled by abstract
  hash-function parameters over the exact record of fields the Python code
  serialises (for a block: index, timestamp, block_type, data, previous_hash,
  nonce, merkle_root).  The claims only depend on which fields feed a hash
  and on string-prefix structure, never on SHA-256 internals.
* Python `Dict[str, Any]` payloads are modelled as association lists of
  string keys and string values (all values flow through `str(...)` before
  hashing in the source).
* The unbounded `while` loops (proof-of-work mining, Merkle-tree halving)
  are modelled with an explicit fuel parameter; running out of fuel models
  divergence and yields `none`.
* Python string slicing and `startswith` act on code points, exactly the
  `List Char` view of Lean strings.
-/

namespace Examnyx

/-- Python `s[:n]` on code points. -/
def pyTake (s : String) (n : Nat) : String := String.mk (s.data.take n)

/-- Python `s.startswith(t)` on code points. -/
def pyStartsWith (s t : String) : Bool := t.data.isPrefixOf s.data

/-- Python `s.replace("Q", "")`: removing every occurrence of the
single-character pattern `"Q"` is filtering the character out. -/
def pyReplaceQ (s : String) : String := String.mk (s.data.filter (fun c => c ≠ 'Q'))

/-- Python `s.lower()` on ASCII answer letters, character by character. -/
def pyLower (s : String) : String := String.mk (s.data.map Char.toLower)

/-! ### `app/blockchain/engine.py` — `Block`, `MerkleTree`, `Blockchain` -/

/-- The record of fields that `Block.calculate_hash` serialises
(`json.dumps(block_data, sort_keys=True)`): index, timestamp, block_type,
data, previous_hash, nonce, merkle_root.  The stored `hash` and the
`signatures` list are not part of it. -/
structure BlockData where
  index : Nat
  timestamp : String
  block_type : String
  data : List (String × String)
  previous_hash : String
  nonce : Nat
  merkle_root : String
deriving DecidableEq

/-- The `Block` dataclass. -/
structure Block where
  index : Nat
  timestamp : String
  block_type : String
  data : List (String × String)
  previous_hash : String
  nonce : Nat := 0
  hash : String := ""
  merkle_root : String := ""
  signatures : List (String × String) := []
deriving DecidableEq

/-- The hashed fields of a block. -/
def blockData (b : Block) : BlockData :=
  { index := b.index, timestamp := b.timestamp, block_type := b.block_type,
    data := b.data, previous_hash := b.previous_hash, nonce := b.nonce,
    merkle_root := b.merkle_root }

/-- `Block.calculate_hash`: SHA-256 of the serialised block data, with the
serialisation-plus-SHA-256 composite abstracted as `H`. -/
def calculate_hash (H : BlockData → String) (b : Block) : String := H (blockData b)

/-- The proof-of-work target `"0" * difficulty`. -/
def target (difficulty : Nat) : String := String.mk (List.replicate difficulty '0')

/-- `Block.mine_block`: `while self.hash[:difficulty] != target: self.nonce += 1;
self.hash = self.calculate_hash()`.  Fuel bounds the number of iterations;
`none` models divergence.  Note the loop condition is tested before any hash
is computed, so a block whose initial `hash` (the empty string) already
matches the target is returned unchanged. -/
def mine_block (H : BlockData → String) (difficulty : Nat) : Nat → Block → Option Block
  | 0, b =>
    if pyTake b.hash difficulty = target difficulty then some b else none
  | fuel + 1, b =>
    if pyTake b.hash difficulty = target difficulty then some b
    else
      let b2 := { b with nonce := b.nonce + 1 }
      mine_block H difficulty fuel { b2 with hash := calculate_hash H b2 }

/-- `MerkleTree.hash_data`. -/
def hash_data (sha : String → String) (s : String) : String := sha s

/-- One pass of the Merkle loop body: duplicate the last hash when the level
has odd length, then combine adjacent pairs. -/
def combinePairs (sha : String → String) : List String → List String
  | [] => []
  | [a] => [sha (a ++ a)]
  | a :: b :: rest => sha (a ++ b) :: combinePairs sha rest

/-- The `while len(hashes) > 1` halving loop of `calculate_merkle_root`,
with fuel (each pass at least halves the level, so fuel equal to the initial
length always suffices). -/
def merkleUp (sha : String → String) : Nat → List String → String
  | _, [] => ""
  | _, [h] => h
  | 0, a :: _ => a
  | fuel + 1, a :: b :: rest => merkleUp sha fuel (combinePairs sha (a :: b :: rest))

/-- `MerkleTree.calculate_merkle_root`. -/
def calculate_merkle_root (sha : String → String) (data_list : List String) : String :=
  if data_list = [] then sha ""
  else merkleUp sha data_list.length (data_list.map (hash_data sha))

/-- The `Blockchain` state: the in-memory chain and the difficulty. -/
structure Blockchain where
  chain : List Block
  difficulty : Nat
deriving DecidableEq

/-- `Blockchain.create_genesis_block` (the block it builds; `ts` is the
`datetime.utcnow().isoformat()` value).  The genesis hash is computed
directly, without mining. -/
def create_genesis_block (H : BlockData → String) (sha : String → String) (ts : String) : Block :=
  let g : Block :=
    { index := 0, timestamp := ts, block_type := "genesis",
      data := [("message", "OMR Blockchain Genesis Block")],
      previous_hash := String.mk (List.replicate 64 '0'),
      merkle_root := calculate_merkle_root sha ["genesis"] }
  { g with hash := calculate_hash H g }

/-- `Blockchain.__init__`: a fresh chain holding only the genesis block. -/
def Blockchain.init (H : BlockData → String) (sha : String → String)
    (difficulty : Nat) (ts : String) : Blockchain :=
  { chain := [create_genesis_block H sha ts], difficulty := difficulty }

/-- `Blockchain.get_latest_block` (`self.chain[-1]`; `none` on an empty
chain, where Python would raise `IndexError`). -/
def get_latest_block (bc : Blockchain) : Option Block := bc.chain.getLast?

/-- `Blockchain.create_block`: build the next block from the latest block,
mine it (or hash it directly when `mine` is false) and append it to the
chain.  `ts` is the `utcnow` value, `fuel` bounds mining. -/
def create_block (H : BlockData → String) (sha : String → String) (bc : Blockchain)
    (block_type : String) (data : List (String × String)) (mine : Bool)
    (ts : String) (fuel : Nat) : Option (Blockchain × Block) :=
  match get_latest_block bc with
  | none => none
  | some latest_block =>
    let data_values := data.map Prod.snd
    let merkle_root := calculate_merkle_root sha data_values
    let new_block : Block :=
      { index := bc.chain.length, timestamp := ts, block_type := block_type,
        data := data, previous_hash := latest_block.hash, merkle_root := merkle_root }
    let mined : Option Block :=
      if mine then mine_block H bc.difficulty fuel new_block
      else some { new_block with hash := calculate_hash H new_block }
    match mined with
    | none => none
    | some b => some ({ bc with chain := bc.chain ++ [b] }, b)

/-- The body of `Blockchain.validate_chain`, walking the chain from index 1
with the predecessor at hand.  The three checks and the first-error result
mirror the source loop; messages omit the source contractions. -/
def validateFrom (H : BlockData → String) (difficulty : Nat) :
    Block → Nat → List Block → Bool × Option String
  | _, _, [] => (true, none)
  | previous_block, i, current_block :: rest =>
    if current_block.hash ≠ calculate_hash H current_block then
      (false, some ("Block " ++ toString i ++ " hash is invalid"))
    else if current_block.previous_hash ≠ previous_block.hash then
      (false, some ("Block " ++ toString i ++ " previous_hash does not match"))
    else if pyStartsWith current_block.hash (target difficulty) = false then
      (false, some ("Block " ++ toString i ++ " does not meet difficulty requirement"))
    else validateFrom H difficulty current_block (i + 1) rest

/-- `Blockchain.validate_chain`: `for i in range(1, len(self.chain))` —
the genesis block at index 0 is only ever used as a predecessor, never
checked itself, and no index values are inspected. -/
def validate_chain (H : BlockData → String) (bc : Blockchain) : Bool × Option String :=
  match bc.chain with
  | [] => (true, none)
  | genesis :: rest => validateFrom H bc.difficulty genesis 1 rest

/-- `Blockchain.get_block_by_index`: `if 0 <= index < len(self.chain)`. -/
def get_block_by_index (bc : Blockchain) (index : Int) : Option Block :=
  if 0 ≤ index ∧ index < (bc.chain.length : Int) then bc.chain[index.toNat]? else none

/-- Python list indexing `l[i]` with an `int` index: non-negative indexes
count from the front, negative indexes from the back, and anything else
raises `IndexError` (`none`). -/
def pyIndex (l : List Block) (i : Int) : Option Block :=
  if 0 ≤ i then l[i.toNat]?
  else if 0 ≤ i + (l.length : Int) then l[(i + (l.length : Int)).toNat]?
  else none

/-- The dictionary `get_chain_proof` builds for a block. -/
structure ChainProof where
  block_index : Int
  block_hash : String
  merkle_root : String
  previous_hash : String
  timestamp : String
  chain_length : Nat
  is_valid : Bool
deriving DecidableEq

/-- Result of `get_chain_proof`: the empty dict (for `block_index >= len`),
a proof dict, or an `IndexError` from `self.chain[block_index]`. -/
inductive ProofResult where
  | emptyDict
  | found (p : ChainProof)
  | indexError
deriving DecidableEq

/-- `Blockchain.get_chain_proof`: the guard only rejects indexes at or past
the chain length; `self.chain[block_index]` then uses Python indexing, so a
negative index within range reads from the end of the chain. -/
def get_chain_proof (H : BlockData → String) (bc : Blockchain) (block_index : Int) :
    ProofResult :=
  if (bc.chain.length : Int) ≤ block_index then ProofResult.emptyDict
  else
    match pyIndex bc.chain block_index with
    | none => ProofResult.indexError
    | some block =>
      ProofResult.found
        { block_index := block_index, block_hash := block.hash,
          merkle_root := block.merkle_root, previous_hash := block.previous_hash,
          timestamp := block.timestamp, chain_length := bc.chain.length,
          is_valid := (validate_chain H bc).1 }

/-! ### `omr_system.py` (`MarkCalculator`) and
`app/services/evaluation_service.py` (`_simple_evaluation`) -/

/-- One entry of the answer key: `{"answer": ..., "marks": ...}`.  Marks are
integers in every answer key the system builds (20 per question in the
string-key constructor). -/
structure KeyEntry where
  answer : String
  marks : Nat
deriving DecidableEq

/-- The double-fallback answer lookup both evaluators use:
`student_answers.get(q_num, student_answers.get(q_key, "X"))`. -/
def lookupAns (student_answers : List (String × String)) (q_num q_key : String) : String :=
  match student_answers.lookup q_num with
  | some a => a
  | none => (student_answers.lookup q_key).getD "X"

/-- One element of the `details` list `MarkCalculator.calculate` builds. -/
structure QuestionDetail where
  question : String
  correct_answer : String
  student_answer : String
  marks_earned : Nat
  marks_possible : Nat
  is_correct : Bool
deriving DecidableEq

/-- The `for q_key, q_data in self.answer_key.items()` loop of
`MarkCalculator.calculate`, with the running total and details list. -/
def calcLoop (student_answers : List (String × String)) :
    List (String × KeyEntry) → Nat → List QuestionDetail → Nat × List QuestionDetail
  | [], total, details => (total, details)
  | (q_key, q_data) :: rest, total, details =>
    let q_num := pyReplaceQ q_key
    let correct := q_data.answer
    let max_marks := q_data.marks
    let student_ans := lookupAns student_answers q_num q_key
    let earned := if student_ans = correct then max_marks else 0
    let d : QuestionDetail :=
      { question := q_key, correct_answer := correct,
        student_answer := student_ans, marks_earned := earned,
        marks_possible := max_marks, is_correct := decide (earned > 0) }
    calcLoop student_answers rest (total + earned) (details ++ [d])

/-- `MarkCalculator.calculate` on an answer key in dict form. -/
def calculate (answer_key : List (String × KeyEntry))
    (student_answers : List (String × String)) : Nat × List QuestionDetail :=
  calcLoop student_answers answer_key 0 []

/-- One element of `question_wise_results` in `_simple_evaluation`. -/
structure SimpleEvalDetail where
  question : String
  question_number : Nat
  correct_answer : String
  student_answer : String
  is_correct : Bool
  marks_earned : Nat
  marks_possible : Nat
deriving DecidableEq

/-- The accumulators of `_simple_evaluation`.  The floating-point
`percentage`/`grade` derived at the end and the confidence pass-through are
outside the claims and omitted. -/
structure SimpleEvalResult where
  automated_total_marks : Nat
  automated_correct : Nat
  automated_incorrect : Nat
  automated_unanswered : Nat
  max_marks : Nat
  question_wise_results : List SimpleEvalDetail
deriving DecidableEq

/-- Python `int(s)` on a plain decimal-digit string; `none` models the
`ValueError` on anything else (signs and surrounding whitespace, which
`int` would also accept, never occur in the question keys). -/
def pyParseNat (s : String) : Option Nat :=
  if s.data ≠ [] ∧ s.data.all (fun c => c.isDigit) then
    some (s.data.foldl (fun n c => n * 10 + (c.toNat - 48)) 0)
  else none

/-- The answer-key loop of `_simple_evaluation`.  `int(q_num)` raises
`ValueError` on a non-numeric key, aborting the whole evaluation (`none`). -/
def simpleEvalLoop (detected_answers : List (String × String)) :
    List (String × KeyEntry) → SimpleEvalResult → Option SimpleEvalResult
  | [], acc => some acc
  | (q_key, q_data) :: rest, acc =>
    let q_num := pyReplaceQ q_key
    match pyParseNat q_num with
    | none => none
    | some question_number =>
      let correct_answer := q_data.answer
      let question_marks := q_data.marks
      let student_answer := lookupAns detected_answers q_num q_key
      let blank := student_answer = "X"
      let right := ¬ blank ∧ student_answer = correct_answer
      let earned_marks := if blank then 0 else if student_answer = correct_answer then question_marks else 0
      let d : SimpleEvalDetail :=
        { question := q_key, question_number := question_number,
          correct_answer := correct_answer, student_answer := student_answer,
          is_correct := decide right, marks_earned := earned_marks,
          marks_possible := question_marks }
      let acc2 : SimpleEvalResult :=
        { automated_total_marks := acc.automated_total_marks + earned_marks,
          automated_correct := acc.automated_correct + (if blank then 0 else if student_answer = correct_answer then 1 else 0),
          automated_incorrect := acc.automated_incorrect + (if blank then 0 else if student_answer = correct_answer then 0 else 1),
          automated_unanswered := acc.automated_unanswered + (if blank then 1 else 0),
          max_marks := acc.max_marks + question_marks,
          question_wise_results := acc.question_wise_results ++ [d] }
      simpleEvalLoop detected_answers rest acc2

/-- `OMREvaluationService._simple_evaluation`. -/
def simple_evaluation (detected_answers : List (String × String))
    (answer_key : List (String × KeyEntry)) : Option SimpleEvalResult :=
  simpleEvalLoop detected_answers answer_key
    { automated_total_marks := 0, automated_correct := 0, automated_incorrect := 0,
      automated_unanswered := 0, max_marks := 0, question_wise_results := [] }

/-! ### `app/services/audit_service.py` — `AuditLogger` -/

/-- The record `create_log_entry` and `verify_log_integrity` hash:
`{sheet_id, event_type, event_data, timestamp}`.  `event_data` is an
opaque JSON payload, modelled as a string. -/
structure LogEntryCore where
  sheet_id : String
  event_type : String
  event_data : String
  timestamp : String
deriving DecidableEq

/-- An audit log entry as `create_log_entry` builds it. -/
structure LogEntry where
  log_id : String
  sheet_id : String
  event_type : String
  event_data : String
  blockchain_hash : Option String
  actor : String
  metadata : String
  timestamp : String
  event_hash : String
deriving DecidableEq

/-- `AuditLogger.create_log_entry`.  The source calls `datetime.utcnow()`
twice: once for the stored `timestamp` field (line 63) and once, separately,
inside the dict that is hashed into `event_hash` (line 68).  `now1` and
`now2` are those two results, in call order. -/
def create_log_entry (hash_dict : LogEntryCore → String)
    (log_id now1 now2 : String) (sheet_id event_type event_data : String)
    (blockchain_hash : Option String) (actor : Option String)
    (metadata : Option String) : LogEntry :=
  { log_id := log_id, sheet_id := sheet_id, event_type := event_type,
    event_data := event_data, blockchain_hash := blockchain_hash,
    actor := actor.getD "system", metadata := metadata.getD "",
    timestamp := now1,
    event_hash := hash_dict
      { sheet_id := sheet_id, event_type := event_type,
        event_data := event_data, timestamp := now2 } }

/-- A per-sheet audit log file. -/
structure AuditLog where
  sheet_id : String
  entries : List LogEntry
deriving DecidableEq

/-- `AuditLogger.append_log`: create the entry and append it to the sheet log,
creating the log when the file does not exist yet. -/
def append_log (hash_dict : LogEntryCore → String)
    (log_id now1 now2 : String) (sheet_id event_type event_data : String)
    (blockchain_hash : Option String) (actor : Option String)
    (metadata : Option String) (existing : Option AuditLog) : AuditLog :=
  let log_entry := create_log_entry hash_dict log_id now1 now2 sheet_id
    event_type event_data blockchain_hash actor metadata
  let logs := existing.getD { sheet_id := sheet_id, entries := [] }
  { logs with entries := logs.entries ++ [log_entry] }

/-- The entry loop of `verify_log_integrity`: recompute each entry hash over
the entry's stored fields (including its stored `timestamp`) and stop at the
first mismatch. -/
def verifyEntries (hash_dict : LogEntryCore → String) :
    List LogEntry → Bool × Option String
  | [] => (true, none)
  | entry :: rest =>
    let expected_hash := hash_dict
      { sheet_id := entry.sheet_id, event_type := entry.event_type,
        event_data := entry.event_data, timestamp := entry.timestamp }
    if entry.event_hash ≠ expected_hash then
      (false, some ("Invalid hash for log entry " ++ entry.log_id))
    else verifyEntries hash_dict rest

/-- `AuditLogger.verify_log_integrity`; `none` models a missing log file. -/
def verify_log_integrity (hash_dict : LogEntryCore → String)
    (logs : Option AuditLog) : Bool × Option String :=
  match logs with
  | none => (false, some "Log file not found")
  | some logs => verifyEntries hash_dict logs.entries

/-! ### `app/services/signature_service.py` — `Signature`, `MultiSignatureEngine` -/

/-- `SignerType`. -/
inductive SignerType where
  | ai_verifier
  | human_verifier
  | admin_controller
deriving DecidableEq

/-- The `.value` of each signer type. -/
def SignerType.value : SignerType → String
  | .ai_verifier => "ai-verifier"
  | .human_verifier => "human-verifier"
  | .admin_controller => "admin-controller"

/-- `SignerType(s)`: the enum constructor, `none` modelling the `ValueError`
it raises on an unknown value. -/
def SignerType.parse (s : String) : Option SignerType :=
  if s = "ai-verifier" then some .ai_verifier
  else if s = "human-verifier" then some .human_verifier
  else if s = "admin-controller" then some .admin_controller
  else none

/-- `SignatureStatus`. -/
inductive SignatureStatus where
  | pending
  | approved
  | rejected
deriving DecidableEq

/-- The three signer keys from `app/config.py` settings. -/
structure Settings where
  AI_VERIFIER_KEY : String
  HUMAN_VERIFIER_KEY : String
  ADMIN_CONTROLLER_KEY : String
deriving DecidableEq

/-- A `Signature` object over a signed payload of type `D`
(`Dict[str, Any]` in the source).  `signed_data_hash` is
`HashingEngine.hash_dict(signed_data)` computed in the constructor.  The
`signature_id`, HMAC `signature_hash` and the created/signed timestamps are
identifiers no claim constrains; they are omitted from the embedding. -/
structure Signature (D : Type) where
  signer_type : SignerType
  signer_key : String
  signed_data : D
  signed_data_hash : String
  status : SignatureStatus
deriving DecidableEq

/-- The `Signature.__init__` constructor (status starts `PENDING`). -/
def mkSignature {D : Type} (hash_dict : D → String) (signer_type : SignerType)
    (signer_key : String) (signed_data : D) : Signature D :=
  { signer_type := signer_type, signer_key := signer_key,
    signed_data := signed_data, signed_data_hash := hash_dict signed_data,
    status := SignatureStatus.pending }

/-- `Signature.approve`. -/
def Signature.approve {D : Type} (s : Signature D) : Signature D :=
  { s with status := SignatureStatus.approved }

/-- `MultiSignatureEngine` state: the required count and the
`self.signatures` dict keyed by `signer_type.value` (insertion order). -/
structure MultiSignatureEngine (D : Type) where
  required_signatures : Nat := 3
  signatures : List (String × Signature D) := []
deriving DecidableEq

/-- `self.expected_signers`. -/
def expected_signers : List SignerType :=
  [SignerType.ai_verifier, SignerType.human_verifier, SignerType.admin_controller]

/-- `self.authorized_keys` built from settings. -/
def authorized_keys (settings : Settings) : SignerType → String
  | .ai_verifier => settings.AI_VERIFIER_KEY
  | .human_verifier => settings.HUMAN_VERIFIER_KEY
  | .admin_controller => settings.ADMIN_CONTROLLER_KEY

/-- `MultiSignatureEngine.add_signature`.  The first source check,
`signer_type not in self.authorized_keys`, cannot fire for a value of the
enum (the dict has all three keys) and has no branch here.  Errors model the
`ValueError`s. -/
def add_signature {D : Type} (settings : Settings) (hash_dict : D → String)
    (e : MultiSignatureEngine D) (signer_type : SignerType) (signer_key : String)
    (signed_data : D) : Except String (MultiSignatureEngine D × Signature D) :=
  if authorized_keys settings signer_type ≠ signer_key then
    Except.error ("Invalid key for signer type: " ++ signer_type.value)
  else if (e.signatures.lookup signer_type.value).isSome then
    Except.error ("Signature already exists for " ++ signer_type.value)
  else
    let s := (mkSignature hash_dict signer_type signer_key signed_data).approve
    Except.ok ({ e with signatures := e.signatures ++ [(signer_type.value, s)] }, s)

/-- `MultiSignatureEngine.is_fully_signed`: the count check, then per
expected signer type a presence check and an approved-status check.  No
`signed_data_hash` is compared to anything here (that comparison exists only
in `verify_signature`, which `is_fully_signed` never calls). -/
def is_fully_signed {D : Type} (e : MultiSignatureEngine D) : Bool :=
  if e.signatures.length < e.required_signatures then false
  else
    expected_signers.all fun signer_type =>
      match e.signatures.lookup signer_type.value with
      | none => false
      | some s => s.status == SignatureStatus.approved

/-! ### Relational rows and the API route handlers
(`app/api/scan_routes.py`, `app/api/verify_routes.py`) -/

/-- A `SheetModel` row (columns the claims touch). -/
structure SheetRow where
  sheet_id : String
  roll_number : String
  exam_id : String
  student_name : String
  original_file_hash : String
  status : String
  scan_hash : String
  verify_hash : Option String := none
deriving DecidableEq

/-- A `BlockModel` row. -/
structure BlockRow where
  block_index : Nat
  block_type : String
  data_hash : String
  previous_hash : String
  block_hash : String
  merkle_root : String
  nonce : Nat
deriving DecidableEq

/-- An `EventModel` row (identifier columns omitted). -/
structure EventRow where
  event_type : String
  sheet_id : String
  event_hash : String
  triggered_by : String
deriving DecidableEq

/-- A `SignatureModel` row. -/
structure SigRow where
  sheet_id : String
  signer_type : String
  signer_key : String
  signed_data_hash : String
  status : String
deriving DecidableEq

/-- The relational database state. -/
structure Db where
  sheets : List SheetRow := []
  blocks : List BlockRow := []
  events : List EventRow := []
  sig_rows : List SigRow := []
deriving DecidableEq

/-- A route outcome: the 2xx response body or an `HTTPException`. -/
inductive ApiResult (A : Type) where
  | success (value : A)
  | httpError (code : Nat) (detail : String)
deriving DecidableEq

/-- `ScanBlockCreate` request schema. -/
structure ScanBlockCreate where
  sheet_id : String
  roll_number : String
  exam_id : String
  student_name : String
  file_hash : String
  metadata : String
  file_content : Option String
deriving DecidableEq

/-- The fields of `ScanBlockResponse` the claims consult. -/
structure ScanBlockResponse where
  sheet_id : String
  block_index : Nat
  block_hash : String
  scan_hash : String
  created_at : String
deriving DecidableEq

/-- The `block_data` dict `create_scan_block` builds and hashes. -/
def scan_block_data (request : ScanBlockCreate) (now : String) : List (String × String) :=
  [("sheet_id", request.sheet_id), ("roll_number", request.roll_number),
   ("exam_id", request.exam_id), ("student_name", request.student_name),
   ("file_hash", request.file_hash), ("metadata", request.metadata),
   ("timestamp", now)]

/-- The `POST /scan/create` handler `create_scan_block`.
`persist_ok` is whether the relational writes (`db.add`/`db.commit`) succeed;
when they raise, the handler runs `db.rollback()` and re-raises as HTTP 500
with the exception text `db_error` — nothing removes the block already
appended to the in-memory chain.  The S3 upload side effect and the
post-commit audit-file append are outside the relational claims and
omitted.  `none` models a mining loop that never terminates. -/
def create_scan_block (H : BlockData → String) (sha : String → String)
    (hash_dict : List (String × String) → String) (hash_file : String → String)
    (persist_ok : Bool) (db_error : String) (fuel : Nat) (now : String)
    (db : Db) (bc : Blockchain) (request : ScanBlockCreate) :
    Option (Db × Blockchain × ApiResult ScanBlockResponse) :=
  if (db.sheets.find? fun s => s.sheet_id == request.sheet_id).isSome then
    some (db, bc, ApiResult.httpError 400 "Sheet already exists")
  else
    let hashMismatch : Bool :=
      match request.file_content with
      | some file_bytes => hash_file file_bytes != request.file_hash
      | none => false
    if hashMismatch then some (db, bc, ApiResult.httpError 400 "File hash mismatch")
    else
      let block_data := scan_block_data request now
      let scan_hash := hash_dict block_data
      match create_block H sha bc "scan" block_data true now fuel with
      | none => none
      | some (bc2, block) =>
        if persist_ok then
          let block_row : BlockRow :=
            { block_index := block.index, block_type := block.block_type,
              data_hash := scan_hash, previous_hash := block.previous_hash,
              block_hash := block.hash, merkle_root := block.merkle_root,
              nonce := block.nonce }
          let sheet_row : SheetRow :=
            { sheet_id := request.sheet_id, roll_number := request.roll_number,
              exam_id := request.exam_id, student_name := request.student_name,
              original_file_hash := request.file_hash, status := "scanned",
              scan_hash := scan_hash }
          let event_row : EventRow :=
            { event_type := "scan_created", sheet_id := request.sheet_id,
              event_hash := scan_hash, triggered_by := "system" }
          let response : ScanBlockResponse :=
            { sheet_id := request.sheet_id, block_index := block.index,
              block_hash := block.hash, scan_hash := scan_hash,
              created_at := block.timestamp }
          let db2 : Db :=
            { db with
              blocks := db.blocks ++ [block_row],
              sheets := db.sheets ++ [sheet_row],
              events := db.events ++ [event_row] }
          some (db2, bc2, ApiResult.success response)
        else some (db, bc2, ApiResult.httpError 500 db_error)

/-- One element of a `VerificationBlockCreate.signatures` list. -/
structure SignatureInput where
  signer_type : String
  signer_key : String
deriving DecidableEq

/-- `VerificationBlockCreate` request schema. -/
structure VerificationBlockCreate (D : Type) where
  sheet_id : String
  verification_data : D
  signatures : List SignatureInput
  metadata : String

/-- The fields of `VerificationBlockResponse` the claims consult. -/
structure VerificationBlockResponse where
  sheet_id : String
  block_index : Nat
  block_hash : String
  verify_hash : String
  signatures_collected : Nat
  created_at : String
deriving DecidableEq

/-- The signature loop of `create_verification_block`: parse each signer
type, run `add_signature` over the shared `verification_data`, and stage a
`SignatureModel` row per accepted signature; any `ValueError` becomes an
HTTP 400 before anything is committed. -/
def processSignatures {D : Type} (settings : Settings) (hash_dict : D → String)
    (sheet_id : String) (verification_data : D) :
    List SignatureInput → MultiSignatureEngine D → List SigRow →
    Except String (MultiSignatureEngine D × List SigRow)
  | [], eng, rows => Except.ok (eng, rows)
  | sig_data :: rest, eng, rows =>
    match SignerType.parse sig_data.signer_type with
    | none => Except.error (sig_data.signer_type ++ " is not a valid SignerType")
    | some signer_type =>
      match add_signature settings hash_dict eng signer_type sig_data.signer_key
          verification_data with
      | Except.error msg => Except.error msg
      | Except.ok (eng2, s) =>
        let row : SigRow :=
          { sheet_id := sheet_id, signer_type := sig_data.signer_type,
            signer_key := sig_data.signer_key,
            signed_data_hash := s.signed_data_hash, status := "approved" }
        processSignatures settings hash_dict sheet_id verification_data rest
          eng2 (rows ++ [row])

/-- The `block_data` dict of the verify route.  `repr_data`, `sigs_repr` and
`proof_repr` stand for the stringified verification payload, signature list
and approval proof (values the claims never inspect). -/
def verify_block_data (sheet_id repr_data sigs_repr proof_repr metadata now : String) :
    List (String × String) :=
  [("sheet_id", sheet_id), ("verification_data", repr_data),
   ("signatures", sigs_repr), ("approval_proof", proof_repr),
   ("metadata", metadata), ("timestamp", now)]

/-- The relational updates of the verify route's success path: insert the
block row, flip the sheet to `verified` with the new `verify_hash`, insert
the event row, and commit the staged signature rows. -/
def verify_success_db (hash_dictL : List (String × String) → String) (db : Db)
    (sheet_id : String) (block_data : List (String × String))
    (sig_rows : List SigRow) (block : Block) : Db :=
  let verify_hash := hash_dictL block_data
  let block_row : BlockRow :=
    { block_index := block.index, block_type := block.block_type,
      data_hash := verify_hash, previous_hash := block.previous_hash,
      block_hash := block.hash, merkle_root := block.merkle_root,
      nonce := block.nonce }
  let event_row : EventRow :=
    { event_type := "verification", sheet_id := sheet_id,
      event_hash := verify_hash, triggered_by := "multi_signature" }
  { db with
    sheets := db.sheets.map fun s =>
      if s.sheet_id == sheet_id then
        { s with status := "verified", verify_hash := some verify_hash }
      else s,
    blocks := db.blocks ++ [block_row],
    events := db.events ++ [event_row],
    sig_rows := db.sig_rows ++ sig_rows }

/-- The response of the verify route's success path. -/
def verify_success_response (hash_dictL : List (String × String) → String)
    (sheet_id : String) (block_data : List (String × String))
    (sig_rows : List SigRow) (block : Block) : VerificationBlockResponse :=
  { sheet_id := sheet_id, block_index := block.index, block_hash := block.hash,
    verify_hash := hash_dictL block_data, signatures_collected := sig_rows.length,
    created_at := block.timestamp }

/-- The `POST /verify/create` handler `create_verification_block`.  It looks
the sheet up (404 when absent) and never reads `sheet.status`; with a full
approved signature set it mines a verify block, updates the sheet to
`verified` and commits.  On the partial-signature path the staged signature
rows are committed before the 400 is raised.  As in the scan route, a
persistence failure rolls back only the database, not the in-memory chain. -/
def create_verification_block {D : Type} (H : BlockData → String)
    (sha : String → String) (hash_dict : D → String)
    (hash_dictL : List (String × String) → String) (settings : Settings)
    (repr_data sigs_repr proof_repr : String)
    (persist_ok : Bool) (db_error : String) (fuel : Nat) (now : String)
    (db : Db) (bc : Blockchain) (request : VerificationBlockCreate D) :
    Option (Db × Blockchain × ApiResult VerificationBlockResponse) :=
  match db.sheets.find? fun s => s.sheet_id == request.sheet_id with
  | none => some (db, bc, ApiResult.httpError 404 "Sheet not found")
  | some _ =>
    match processSignatures settings hash_dict request.sheet_id
        request.verification_data request.signatures {} [] with
    | Except.error msg => some (db, bc, ApiResult.httpError 400 msg)
    | Except.ok (sig_engine, sig_rows) =>
      if is_fully_signed sig_engine = false then
        some ({ db with sig_rows := db.sig_rows ++ sig_rows }, bc,
              ApiResult.httpError 400 "Verification rejected: missing signatures")
      else
        let block_data := verify_block_data request.sheet_id repr_data sigs_repr
          proof_repr request.metadata now
        let verify_hash := hash_dictL block_data
        match create_block H sha bc "verify" block_data true now fuel with
        | none => none
        | some (bc2, block) =>
          if persist_ok then
            some (verify_success_db hash_dictL db request.sheet_id block_data sig_rows block,
              bc2,
              ApiResult.success
                (verify_success_response hash_dictL request.sheet_id block_data sig_rows block))
          else some (db, bc2, ApiResult.httpError 500 db_error)

/-! ### Chain-validity predicates (the conditions `validate_chain` checks) -/

/-- The three checks `validate_chain` runs on one non-genesis block against
its predecessor: recomputed hash, linkage, difficulty prefix. -/
def blockOkB (H : BlockData → String) (difficulty : Nat) (prev b : Block) : Bool :=
  (b.hash == calculate_hash H b) && (b.previous_hash == prev.hash) &&
    pyStartsWith b.hash (target difficulty)

/-- `blockOkB` folded along a chain tail, threading the predecessor. -/
def chainOkB (H : BlockData → String) (difficulty : Nat) : Block → List Block → Bool
  | _, [] => true
  | prev, b :: rest => blockOkB H difficulty prev b && chainOkB H difficulty b rest

/-! ### Concrete instances used by counterexamples and witnesses.
The abstract hash functions are instantiated with small computable stand-ins
(the claims never depend on SHA-256 internals, only on equality and prefix
structure of the outputs). -/

/-- A 64-hex-character string: the shape of a real SHA-256 hexdigest. -/
def hex64 : String := "0123456789abcdef0123456789abcdef0123456789abcdef0123456789abcdef"

def c1H : BlockData → String := fun _ => "h"

def c1sha : String → String := fun _ => "m"

def c1bc : Blockchain := Blockchain.init c1H c1sha 4 "g0"

/-- A genesis block whose stored hash does not match its recomputed hash
(`c1H` of its data is `"h"`, the stored value is `"tampered"`). -/
def c1_bad_genesis : Block :=
  { index := 0, timestamp := "t0", block_type := "genesis",
    data := [("message", "OMR Blockchain Genesis Block")],
    previous_hash := String.mk (List.replicate 64 '0'),
    hash := "tampered", merkle_root := "m" }

def c1_bad_bc : Blockchain := { chain := [c1_bad_genesis], difficulty := 4 }

def c8H : BlockData → String := fun _ => hex64

def c8sha : String → String := fun _ => hex64

/-- A blockchain constructed with `difficulty = 0`. -/
def c8_bc0 : Blockchain := Blockchain.init c8H c8sha 0 "tg"

/-- The block `create_block(..., mine=True)` appends at difficulty 0: the
mining loop exits before computing any hash, so `hash` stays `""`. -/
def c8_block : Block :=
  { index := 1, timestamp := "t1", block_type := "scan",
    data := [("sheet_id", "s1")], previous_hash := hex64,
    nonce := 0, hash := "", merkle_root := hex64 }

def c8_bc1 : Blockchain := { chain := c8_bc0.chain ++ [c8_block], difficulty := 0 }

def c9H : BlockData → String := fun _ => "0000h"

def c9sha : String → String := fun _ => "m"

def c9bc : Blockchain := Blockchain.init c9H c9sha 4 "g0"

/-- The block mined on `c9bc` (one iteration: nonce 1, hash `c9H ... = "0000h"`). -/
def c9_block : Block :=
  { index := 1, timestamp := "t1", block_type := "scan",
    data := [("k", "v")], previous_hash := "0000h",
    nonce := 1, hash := "0000h", merkle_root := "m" }

def c9_bc2 : Blockchain := { chain := c9bc.chain ++ [c9_block], difficulty := 4 }

/-- The proof dict `get_chain_proof` returns for index `-1` on `c1bc`:
built from the genesis block, counted from the end of the chain. -/
def c10_proof : ChainProof :=
  { block_index := -1, block_hash := "h", merkle_root := "m",
    previous_hash := String.mk (List.replicate 64 '0'), timestamp := "g0",
    chain_length := 1, is_valid := true }

/-! ### Spec-side characterisations for the evaluation claim -/

/-- The marks one question earns under exact (case-sensitive) string
comparison of the looked-up student answer against the key answer — the
spec-side characterisation the amended claim states. -/
def creditOf (student_answers : List (String × String)) (q_key : String)
    (e : KeyEntry) : Nat :=
  if lookupAns student_answers (pyReplaceQ q_key) q_key = e.answer then e.marks else 0

/-- The detail record `MarkCalculator.calculate` emits for one question,
expressed through `creditOf`. -/
def detailOf (student_answers : List (String × String)) (q_key : String)
    (e : KeyEntry) : QuestionDetail :=
  { question := q_key, correct_answer := e.answer,
    student_answer := lookupAns student_answers (pyReplaceQ q_key) q_key,
    marks_earned := creditOf student_answers q_key e,
    marks_possible := e.marks,
    is_correct := decide (creditOf student_answers q_key e > 0) }

/-- The marks one question earns in `_simple_evaluation`: a blank (`"X"`)
answer earns zero before any comparison, otherwise exact comparison. -/
def scredit (detected_answers : List (String × String)) (q_key : String)
    (e : KeyEntry) : Nat :=
  let a := lookupAns detected_answers (pyReplaceQ q_key) q_key
  if a = "X" then 0 else if a = e.answer then e.marks else 0

/-- Concrete inputs for the evaluation claim: key answer `"A"`, detected
answer `"a"` — equal case-insensitively, different case-sensitively. -/
def c7_key : List (String × KeyEntry) := [("Q1", { answer := "A", marks := 20 })]

def c7_student : List (String × String) := [("1", "a")]

/-- Concrete injective stand-in for `HashingEngine.hash_dict` on audit log
entry cores (the canonical JSON of the four fields, separator-encoded). -/
def c5hash : LogEntryCore → String :=
  fun c => c.sheet_id ++ "|" ++ c.event_type ++ "|" ++ c.event_data ++ "|" ++ c.timestamp

/-- The hashed record of `c5_log`'s single entry as `verify_log_integrity`
recomputes it: over the entry's stored timestamp `"T1"`. -/
def c5_core : LogEntryCore :=
  { sheet_id := "s1", event_type := "scan_block_created",
    event_data := "d", timestamp := "T1" }

/-- Decidable equality for `Except` results (core provides none). -/
instance {e a : Type} [DecidableEq e] [DecidableEq a] :
    DecidableEq (Except e a) := fun x y =>
  match x, y with
  | Except.ok v, Except.ok w =>
    if h : v = w then Decidable.isTrue (congrArg Except.ok h)
    else Decidable.isFalse (fun hc => h (Except.ok.inj hc))
  | Except.error v, Except.error w =>
    if h : v = w then Decidable.isTrue (congrArg Except.error h)
    else Decidable.isFalse (fun hc => h (Except.error.inj hc))
  | Except.ok _, Except.error _ => Decidable.isFalse (fun hc => Except.noConfusion hc)
  | Except.error _, Except.ok _ => Decidable.isFalse (fun hc => Except.noConfusion hc)

/-- An audit log produced by a single `append_log` call during which the two
`datetime.utcnow()` calls inside `create_log_entry` returned different
strings (`"T1"` stored, `"T2"` hashed). -/
def c5_log : AuditLog :=
  append_log c5hash "id1" "T1" "T2" "s1" "scan_block_created" "d" none none none none

/-- Concrete signer keys for the multi-signature claim. -/
def c3settings : Settings :=
  { AI_VERIFIER_KEY := "k1", HUMAN_VERIFIER_KEY := "k2",
    ADMIN_CONTROLLER_KEY := "k3" }

/-- The approved signature `add_signature` creates over payload
`"other-payload"` with `hash_dict = id`. -/
def c3sig (t : SignerType) (k : String) : Signature String :=
  { signer_type := t, signer_key := k, signed_data := "other-payload",
    signed_data_hash := "other-payload", status := SignatureStatus.approved }

def c3e0 : MultiSignatureEngine String := {}

def c3e1 : MultiSignatureEngine String :=
  { required_signatures := 3,
    signatures := [("ai-verifier", c3sig SignerType.ai_verifier "k1")] }

def c3e2 : MultiSignatureEngine String :=
  { required_signatures := 3,
    signatures := [("ai-verifier", c3sig SignerType.ai_verifier "k1"),
      ("human-verifier", c3sig SignerType.human_verifier "k2")] }

def c3e3 : MultiSignatureEngine String :=
  { required_signatures := 3,
    signatures := [("ai-verifier", c3sig SignerType.ai_verifier "k1"),
      ("human-verifier", c3sig SignerType.human_verifier "k2"),
      ("admin-controller", c3sig SignerType.admin_controller "k3")] }

/-! ### Concrete route-level instances -/

def c24hash_dict : List (String × String) → String := fun _ => "dh"

def c24hash_file : String → String := fun _ => "fh"

def c24_req : ScanBlockCreate :=
  { sheet_id := "s1", roll_number := "r1", exam_id := "e1", student_name := "n1",
    file_hash := "fh", metadata := "md", file_content := none }

/-- The scan block mined for `c24_req` on `c9bc` (one iteration of mining). -/
def c24_block : Block :=
  { index := 1, timestamp := "t1", block_type := "scan",
    data := scan_block_data c24_req "t1", previous_hash := "0000h",
    nonce := 1, hash := "0000h", merkle_root := "m" }

def c24_bc1 : Blockchain := { chain := c9bc.chain ++ [c24_block], difficulty := 4 }

def c4_sheet : SheetRow :=
  { sheet_id := "s1", roll_number := "r1", exam_id := "e1", student_name := "n1",
    original_file_hash := "fh", status := "scanned", scan_hash := "dh" }

def c4_blockrow : BlockRow :=
  { block_index := 1, block_type := "scan", data_hash := "dh",
    previous_hash := "0000h", block_hash := "0000h", merkle_root := "m", nonce := 1 }

def c4_event : EventRow :=
  { event_type := "scan_created", sheet_id := "s1", event_hash := "dh",
    triggered_by := "system" }

def c4_db1 : Db :=
  { sheets := [c4_sheet], blocks := [c4_blockrow], events := [c4_event], sig_rows := [] }

def c4_resp : ScanBlockResponse :=
  { sheet_id := "s1", block_index := 1, block_hash := "0000h", scan_hash := "dh",
    created_at := "t1" }

def c6vh : List (String × String) → String := fun _ => "vh"

/-- A sheet whose lifecycle status is `scanned` — not the `scored` pre-state
the claim says `createVerify` requires. -/
def c6_sheet : SheetRow :=
  { sheet_id := "s1", roll_number := "r1", exam_id := "e1", student_name := "n1",
    original_file_hash := "fh", status := "scanned", scan_hash := "sh" }

def c6_db : Db := { sheets := [c6_sheet] }

def c6_req : VerificationBlockCreate String :=
  { sheet_id := "s1", verification_data := "vd",
    signatures := [{ signer_type := "ai-verifier", signer_key := "k1" },
      { signer_type := "human-verifier", signer_key := "k2" },
      { signer_type := "admin-controller", signer_key := "k3" }],
    metadata := "md" }

def c6sig (t : SignerType) (k : String) : Signature String :=
  { signer_type := t, signer_key := k, signed_data := "vd",
    signed_data_hash := "vd", status := SignatureStatus.approved }

def c6_eng : MultiSignatureEngine String :=
  { required_signatures := 3,
    signatures := [("ai-verifier", c6sig SignerType.ai_verifier "k1"),
      ("human-verifier", c6sig SignerType.human_verifier "k2"),
      ("admin-controller", c6sig SignerType.admin_controller "k3")] }

def c6_rows : List SigRow :=
  [{ sheet_id := "s1", signer_type := "ai-verifier", signer_key := "k1",
     signed_data_hash := "vd", status := "approved" },
   { sheet_id := "s1", signer_type := "human-verifier", signer_key := "k2",
     signed_data_hash := "vd", status := "approved" },
   { sheet_id := "s1", signer_type := "admin-controller", signer_key := "k3",
     signed_data_hash := "vd", status := "approved" }]

def c6_bdata : List (String × String) := verify_block_data "s1" "rd" "sr" "pr" "md" "t1"

def c6_block : Block :=
  { index := 1, timestamp := "t1", block_type := "verify", data := c6_bdata,
    previous_hash := "0000h", nonce := 1, hash := "0000h", merkle_root := "m" }

def c6_bc2 : Blockchain := { chain := c9bc.chain ++ [c6_block], difficulty := 4 }

def c6_db2 : Db := verify_success_db c6vh c6_db "s1" c6_bdata c6_rows c6_block

def c6_resp : VerificationBlockResponse :=
  verify_success_response c6vh "s1" c6_bdata c6_rows c6_block

/-! ## Theorems -/

/-! ### Helper lemmas on the blockchain engine -/

/-- The stored `hash` field does not feed `calculate_hash`. -/
theorem calculate_hash_set_hash (H : BlockData → String) (b : Block) (h : String) :
    calculate_hash H { b with hash := h } = calculate_hash H b := rfl

/-- The validation walk succeeds exactly when every walked block passes the
three per-block checks against its predecessor. -/
theorem validateFrom_eq_true_iff (H : BlockData → String) (difficulty : Nat)
    (l : List Block) : ∀ (prev : Block) (i : Nat),
    validateFrom H difficulty prev i l = (true, none) ↔
      chainOkB H difficulty prev l = true := by
  induction l with
  | nil => intro prev i; simp [validateFrom, chainOkB]
  | cons b rest ih =>
    intro prev i
    simp only [validateFrom]
    split_ifs with h1 h2 h3
    · constructor
      · intro hcontra; simp at hcontra
      · intro hok; simp [chainOkB, blockOkB, beq_iff_eq, h1] at hok
    · constructor
      · intro hcontra; simp at hcontra
      · intro hok; simp [chainOkB, blockOkB, beq_iff_eq, h2] at hok
    · constructor
      · intro hcontra; simp at hcontra
      · intro hok; simp [chainOkB, blockOkB, h3] at hok
    · have hs : pyStartsWith b.hash (target difficulty) = true := by
        cases hval : pyStartsWith b.hash (target difficulty)
        · exact absurd hval h3
        · rfl
      have e1 : (b.hash == calculate_hash H b) = true :=
        beq_iff_eq.mpr (not_not.mp h1)
      have e2 : (b.previous_hash == prev.hash) = true :=
        beq_iff_eq.mpr (not_not.mp h2)
      rw [ih b (i + 1)]
      simp [chainOkB, blockOkB, e1, e2, hs]

/-- Mining changes only `nonce` and `hash`. -/
theorem mine_block_fields (H : BlockData → String) (difficulty : Nat) :
    ∀ (fuel : Nat) (b0 b : Block), mine_block H difficulty fuel b0 = some b →
      b.index = b0.index ∧ b.timestamp = b0.timestamp ∧
      b.block_type = b0.block_type ∧ b.data = b0.data ∧
      b.previous_hash = b0.previous_hash ∧ b.merkle_root = b0.merkle_root := by
  intro fuel
  induction fuel with
  | zero =>
    intro b0 b h
    simp only [mine_block] at h
    split at h
    · cases h; exact ⟨rfl, rfl, rfl, rfl, rfl, rfl⟩
    · cases h
  | succ fuel ih =>
    intro b0 b h
    simp only [mine_block] at h
    split at h
    · cases h; exact ⟨rfl, rfl, rfl, rfl, rfl, rfl⟩
    · simpa using ih _ b h

/-- A successfully mined block matches the target prefix, and unless the
loop exited immediately its stored hash is its recomputed hash. -/
theorem mine_block_hash (H : BlockData → String) (difficulty : Nat) :
    ∀ (fuel : Nat) (b0 b : Block), mine_block H difficulty fuel b0 = some b →
      pyTake b.hash difficulty = target difficulty ∧
        (b = b0 ∨ b.hash = calculate_hash H b) := by
  intro fuel
  induction fuel with
  | zero =>
    intro b0 b h
    simp only [mine_block] at h
    split at h
    · cases h; exact ⟨by assumption, Or.inl rfl⟩
    · cases h
  | succ fuel ih =>
    intro b0 b h
    simp only [mine_block] at h
    split at h
    · cases h; exact ⟨by assumption, Or.inl rfl⟩
    · obtain ⟨h1, h2⟩ := ih _ b h
      refine ⟨h1, Or.inr ?_⟩
      rcases h2 with rfl | h2
      · rfl
      · exact h2

/-- Inversion of `create_block` with `mine = True`. -/
theorem create_block_mine_inv (H : BlockData → String) (sha : String → String)
    (bc : Blockchain) (block_type : String) (data : List (String × String))
    (ts : String) (fuel : Nat) (bc2 : Blockchain) (b : Block)
    (h : create_block H sha bc block_type data true ts fuel = some (bc2, b)) :
    ∃ latest, get_latest_block bc = some latest ∧
      mine_block H bc.difficulty fuel
        { index := bc.chain.length, timestamp := ts, block_type := block_type,
          data := data, previous_hash := latest.hash,
          merkle_root := calculate_merkle_root sha (data.map Prod.snd) } = some b ∧
      bc2 = { bc with chain := bc.chain ++ [b] } := by
  simp only [create_block] at h
  cases hl : get_latest_block bc with
  | none => rw [hl] at h; cases h
  | some latest =>
    rw [hl] at h
    simp only [if_true] at h
    split at h
    · cases h
    · rename_i b' hb'
      cases h
      exact ⟨latest, rfl, hb', rfl⟩

/-- `chainOkB` over a tail extended by one block. -/
theorem chainOkB_append_singleton (H : BlockData → String) (difficulty : Nat)
    (l : List Block) : ∀ (prev b : Block),
    chainOkB H difficulty prev (l ++ [b]) =
      (chainOkB H difficulty prev l && blockOkB H difficulty (l.getLastD prev) b) := by
  induction l with
  | nil => intro prev b; simp [chainOkB]
  | cons c rest ih =>
    intro prev b
    simp only [List.cons_append, chainOkB, List.append_eq, ih, List.getLastD_cons,
      Bool.and_assoc]

/-- `getLast?` of a cons in terms of `getLastD`. -/
theorem getLast?_cons_eq_getLastD (g : Block) (rest : List Block) :
    (g :: rest).getLast? = some (rest.getLastD g) := by
  induction rest generalizing g with
  | nil => rfl
  | cons c rest ih => rw [List.getLast?_cons_cons, ih, List.getLastD_cons]

/-- A string whose `difficulty`-slice equals the all-zero target starts with
the target. -/
theorem pyStartsWith_of_pyTake_eq (s : String) (difficulty : Nat)
    (h : pyTake s difficulty = target difficulty) :
    pyStartsWith s (target difficulty) = true := by
  have hdata : s.data.take difficulty = List.replicate difficulty '0' :=
    congrArg String.data h
  have hpre : (List.replicate difficulty '0') <+: s.data := by
    rw [← hdata]; exact List.take_prefix difficulty s.data
  unfold pyStartsWith target
  exact List.isPrefixOf_iff_prefix.mpr hpre

/-! ### Claim C1 -/

/-- Claim C1 (amended): `validate_chain()` returns ok if and only if every
block from index 1 on passes the three checks against its predecessor —
recomputed hash equals stored hash, `previous_hash` equals the
predecessor's stored hash, and the stored hash starts with `difficulty`
zeros.  The genesis block's own hash is never recomputed and no index
values are inspected (the loop runs `for i in range(1, len(chain))` and
never reads `block.index`). -/
theorem validate_chain_ok_iff_nongenesis_checks (H : BlockData → String)
    (bc : Blockchain) (genesis : Block) (rest : List Block)
    (hchain : bc.chain = genesis :: rest) :
    validate_chain H bc = (true, none) ↔
      chainOkB H bc.difficulty genesis rest = true := by
  simp only [validate_chain, hchain]
  exact validateFrom_eq_true_iff H bc.difficulty rest genesis 1

/-- Witness for C1 at a concrete one-block chain. -/
theorem validate_chain_ok_iff_nongenesis_checks_witness :
    c1bc.chain = [create_genesis_block c1H c1sha "g0"] ∧
    (validate_chain c1H c1bc = (true, none) ↔
      chainOkB c1H c1bc.difficulty (create_genesis_block c1H c1sha "g0") [] = true) :=
  ⟨rfl, validate_chain_ok_iff_nongenesis_checks c1H c1bc
    (create_genesis_block c1H c1sha "g0") [] rfl⟩

/-- Counterexample to C1 as stated: a chain whose genesis block has a
stored hash different from its recomputed hash (and without the difficulty
prefix) on which `validate_chain()` still returns ok — the claimed
"including the genesis block" equivalence fails. -/
theorem validate_chain_ignores_genesis_hash :
    validate_chain c1H c1_bad_bc = (true, none) ∧
    c1_bad_genesis.hash ≠ calculate_hash c1H c1_bad_genesis ∧
    pyStartsWith c1_bad_genesis.hash (target c1_bad_bc.difficulty) = false := by
  decide

/-! ### Claim C8 -/

/-- Claim C8 (code bug): with `difficulty = 0` the mining loop condition
`self.hash[:0] != ""` is false immediately, so `mine_block` returns without
ever computing a hash; the appended block keeps `hash = ""` and
`validate_chain()` returns `(False, "Block 1 hash is invalid")` rather than
ok, because the stored empty hash differs from the recomputed digest. -/
theorem difficulty_zero_mining_skips_hash :
    create_block c8H c8sha c8_bc0 "scan" [("sheet_id", "s1")] true "t1" 5 =
      some (c8_bc1, c8_block) ∧
    c8_block.hash = "" ∧
    c8_block.nonce = 0 ∧
    validate_chain c8H c8_bc1 = (false, some "Block 1 hash is invalid") := by
  decide

/-! ### Claim C9 -/

/-- Claim C9: at difficulty 4, appending any block with
`create_block(block_type, data, mine=True)` to a chain on which
`validate_chain()` returns ok (and on which mining terminates) makes
`validate_chain()` return `(True, None)` again: the mining loop runs at
least once (the fresh hash `""` cannot match `"0000"`), so the stored hash
is the recomputed hash and carries the difficulty prefix, and
`previous_hash` is the old tip's hash. -/
theorem append_then_validate_ok (H : BlockData → String) (sha : String → String)
    (bc : Blockchain) (block_type : String) (data : List (String × String))
    (ts : String) (fuel : Nat) (bc2 : Blockchain) (b : Block)
    (hdiff : bc.difficulty = 4)
    (hvalid : validate_chain H bc = (true, none))
    (hcreate : create_block H sha bc block_type data true ts fuel = some (bc2, b)) :
    validate_chain H bc2 = (true, none) := by
  obtain ⟨latest, hlatest, hmine, rfl⟩ :=
    create_block_mine_inv H sha bc block_type data ts fuel bc2 b hcreate
  obtain ⟨genesis, rest, hchain⟩ : ∃ g rest, bc.chain = g :: rest := by
    cases hc : bc.chain with
    | nil => rw [get_latest_block, hc] at hlatest; cases hlatest
    | cons g rest => exact ⟨g, rest, rfl⟩
  have hfields := mine_block_fields H bc.difficulty fuel _ b hmine
  obtain ⟨htake, hcase⟩ := mine_block_hash H bc.difficulty fuel _ b hmine
  have hbhash : b.hash = calculate_hash H b := by
    rcases hcase with rfl | h
    · exfalso
      rw [hdiff] at htake
      change pyTake "" 4 = target 4 at htake
      exact absurd htake (by decide)
    · exact h
  have hprev : b.previous_hash = latest.hash := hfields.2.2.2.2.1
  have hstarts : pyStartsWith b.hash (target bc.difficulty) = true :=
    pyStartsWith_of_pyTake_eq b.hash bc.difficulty htake
  have hlatestD : latest = rest.getLastD genesis := by
    rw [get_latest_block, hchain, getLast?_cons_eq_getLastD] at hlatest
    exact (Option.some.inj hlatest).symm
  have hOk : chainOkB H bc.difficulty genesis rest = true := by
    simp only [validate_chain, hchain] at hvalid
    exact (validateFrom_eq_true_iff H bc.difficulty rest genesis 1).mp hvalid
  simp only [validate_chain, hchain, List.cons_append]
  apply (validateFrom_eq_true_iff H bc.difficulty (rest ++ [b]) genesis 1).mpr
  rw [chainOkB_append_singleton, Bool.and_eq_true]
  refine ⟨hOk, ?_⟩
  rw [← hlatestD]
  have e1 : (b.hash == calculate_hash H b) = true := beq_iff_eq.mpr hbhash
  have e2 : (b.previous_hash == latest.hash) = true := beq_iff_eq.mpr hprev
  simp [blockOkB, e1, e2, hstarts]

/-- Witness for C9: a concrete mine-and-append at difficulty 4. -/
theorem append_then_validate_ok_witness :
    c9bc.difficulty = 4 ∧
    validate_chain c9H c9bc = (true, none) ∧
    create_block c9H c9sha c9bc "scan" [("k", "v")] true "t1" 1 =
      some (c9_bc2, c9_block) ∧
    validate_chain c9H c9_bc2 = (true, none) :=
  ⟨rfl, by decide, by decide,
    append_then_validate_ok c9H c9sha c9bc "scan" [("k", "v")] "t1" 1 c9_bc2
      c9_block rfl (by decide) (by decide)⟩

/-! ### Claim C10 -/

/-- Claim C10: `get_block_by_index(i)` returns a block exactly when
`0 <= i < len(chain)` (and then the block at position `i`);
`get_chain_proof(i)` returns the empty dict exactly for `i >= len(chain)`,
and for negative `i` with `|i| <= len(chain)` it returns a proof built from
the block `len(chain) + i` counted from the front — i.e. counted from the
end of the chain — rather than an empty dict or an error. -/
theorem get_block_by_index_and_chain_proof_bounds (H : BlockData → String)
    (bc : Blockchain) (i : Int) :
    (∀ b : Block, get_block_by_index bc i = some b ↔
      (0 ≤ i ∧ i < (bc.chain.length : Int) ∧ bc.chain[i.toNat]? = some b)) ∧
    (get_chain_proof H bc i = ProofResult.emptyDict ↔ (bc.chain.length : Int) ≤ i) ∧
    (i < 0 → 0 ≤ i + (bc.chain.length : Int) →
      ∃ b : Block, bc.chain[(i + (bc.chain.length : Int)).toNat]? = some b ∧
        get_chain_proof H bc i = ProofResult.found
          { block_index := i, block_hash := b.hash, merkle_root := b.merkle_root,
            previous_hash := b.previous_hash, timestamp := b.timestamp,
            chain_length := bc.chain.length,
            is_valid := (validate_chain H bc).1 }) := by
  refine ⟨?_, ?_, ?_⟩
  · intro b
    unfold get_block_by_index
    split_ifs with h
    · obtain ⟨h0, hlt⟩ := h
      simp [h0, hlt]
    · constructor
      · intro hc; simp at hc
      · rintro ⟨h0, hlt, _⟩; exact absurd ⟨h0, hlt⟩ h
  · unfold get_chain_proof
    split_ifs with h
    · simp [h]
    · constructor
      · intro hc
        cases hp : pyIndex bc.chain i <;> rw [hp] at hc <;> simp at hc
      · intro hle; exact absurd hle h
  · intro hneg hnn
    have hnle : ¬ ((bc.chain.length : Int) ≤ i) := by omega
    have hidx : (i + (bc.chain.length : Int)).toNat < bc.chain.length := by omega
    refine ⟨bc.chain[(i + (bc.chain.length : Int)).toNat],
      List.getElem?_eq_getElem hidx, ?_⟩
    have hp : pyIndex bc.chain i =
        some (bc.chain[(i + (bc.chain.length : Int)).toNat]) := by
      unfold pyIndex
      rw [if_neg (by omega), if_pos hnn]
      exact List.getElem?_eq_getElem hidx
    unfold get_chain_proof
    rw [if_neg hnle, hp]

/-- Witness for C10 at `i = -1` on a one-block chain: the proof is built
from the genesis block counted from the end. -/
theorem get_block_by_index_and_chain_proof_bounds_witness :
    get_chain_proof c1H c1bc (-1) = ProofResult.found c10_proof := by
  obtain ⟨b, hb, hp⟩ :=
    (get_block_by_index_and_chain_proof_bounds c1H c1bc (-1)).2.2
      (by decide) (by decide)
  have h0 : c1bc.chain[((-1 : Int) + (c1bc.chain.length : Int)).toNat]? =
      some (create_genesis_block c1H c1sha "g0") := by decide
  rw [h0] at hb
  rw [(Option.some.inj hb).symm] at hp
  exact hp.trans (by decide)

/-! ### Helper lemmas for the evaluation claim -/

/-- The `calculate` loop in closed form: final total and details. -/
theorem calcLoop_spec (student_answers : List (String × String))
    (answer_key : List (String × KeyEntry)) : ∀ (total : Nat) (details : List QuestionDetail),
    calcLoop student_answers answer_key total details =
      (total + (answer_key.map fun q => creditOf student_answers q.1 q.2).sum,
       details ++ answer_key.map fun q => detailOf student_answers q.1 q.2) := by
  induction answer_key with
  | nil => intro t d; simp [calcLoop]
  | cons q rest ih =>
    intro t d
    obtain ⟨q_key, e⟩ := q
    simp [calcLoop, ih, detailOf, creditOf, Nat.add_assoc]

/-- The `_simple_evaluation` loop adds exactly the `scredit` of each
question to the running total. -/
theorem simpleEvalLoop_total (detected_answers : List (String × String)) :
    ∀ (answer_key : List (String × KeyEntry)) (acc res : SimpleEvalResult),
    simpleEvalLoop detected_answers answer_key acc = some res →
      res.automated_total_marks = acc.automated_total_marks +
        (answer_key.map fun q => scredit detected_answers q.1 q.2).sum := by
  intro answer_key
  induction answer_key with
  | nil =>
    intro acc res h
    cases h
    simp
  | cons q rest ih =>
    intro acc res h
    obtain ⟨q_key, e⟩ := q
    simp only [simpleEvalLoop] at h
    split at h
    · cases h
    · have := ih _ res h
      rw [this]
      simp [scredit, Nat.add_assoc]

/-- Every detail row `_simple_evaluation` emits follows the blank-then-exact
marking rule. -/
theorem simpleEvalLoop_marks (detected_answers : List (String × String)) :
    ∀ (answer_key : List (String × KeyEntry)) (acc res : SimpleEvalResult),
    simpleEvalLoop detected_answers answer_key acc = some res →
    (∀ d ∈ acc.question_wise_results,
      d.marks_earned = if d.student_answer = "X" then 0
        else if d.student_answer = d.correct_answer then d.marks_possible else 0) →
    ∀ d ∈ res.question_wise_results,
      d.marks_earned = if d.student_answer = "X" then 0
        else if d.student_answer = d.correct_answer then d.marks_possible else 0 := by
  intro answer_key
  induction answer_key with
  | nil =>
    intro acc res h hacc
    cases h
    exact hacc
  | cons q rest ih =>
    intro acc res h hacc
    obtain ⟨q_key, e⟩ := q
    simp only [simpleEvalLoop] at h
    split at h
    · cases h
    · refine ih _ res h ?_
      intro d hd
      rw [List.mem_append] at hd
      rcases hd with hd | hd
      · exact hacc d hd
      · rw [List.mem_singleton] at hd
        subst hd
        simp

/-! ### Claim C7 -/

/-- Claim C7 (amended): in both `MarkCalculator.calculate` and
`_simple_evaluation`, a question's marks are credited if and only if the
looked-up answer equals the key answer under exact, case-sensitive string
comparison (the source compares with `==`, never lower/upper-casing); a
blank `"X"` earns zero unconditionally in `_simple_evaluation`, and in
`MarkCalculator` whenever the key answer is not itself `"X"`. -/
theorem marks_credited_iff_exact_match (answer_key : List (String × KeyEntry))
    (student_answers : List (String × String)) :
    ((calculate answer_key student_answers).1 =
      (answer_key.map fun q => creditOf student_answers q.1 q.2).sum) ∧
    (∀ d ∈ (calculate answer_key student_answers).2,
      d.marks_earned =
        if d.student_answer = d.correct_answer then d.marks_possible else 0) ∧
    (∀ q ∈ answer_key,
      lookupAns student_answers (pyReplaceQ q.1) q.1 = "X" → q.2.answer ≠ "X" →
        creditOf student_answers q.1 q.2 = 0) ∧
    (∀ res, simple_evaluation student_answers answer_key = some res →
      res.automated_total_marks =
        (answer_key.map fun q => scredit student_answers q.1 q.2).sum ∧
      ∀ d ∈ res.question_wise_results,
        d.marks_earned = if d.student_answer = "X" then 0
          else if d.student_answer = d.correct_answer then d.marks_possible else 0) := by
  refine ⟨?_, ?_, ?_, ?_⟩
  · rw [calculate, calcLoop_spec]
    simp
  · intro d hd
    rw [calculate, calcLoop_spec] at hd
    simp only [List.nil_append, List.mem_map] at hd
    obtain ⟨q, _, rfl⟩ := hd
    simp [detailOf, creditOf]
  · intro q _ hblank hkey
    rw [creditOf, if_neg]
    rw [hblank]
    exact fun hc => hkey hc.symm
  · intro res hres
    refine ⟨?_, ?_⟩
    · have := simpleEvalLoop_total student_answers answer_key _ res hres
      simpa using this
    · refine simpleEvalLoop_marks student_answers answer_key _ res hres ?_
      intro d hd
      simp at hd

/-- Witness for C7 at the concrete answer key and student answers. -/
theorem marks_credited_iff_exact_match_witness :
    (calculate c7_key c7_student).1 = 0 := by
  have h := marks_credited_iff_exact_match c7_key c7_student
  rw [h.1]
  decide

/-- Counterexample to C7 as stated: detected answer `"a"` versus key answer
`"A"` are equal case-insensitively, yet both evaluation paths credit zero
marks — the comparison is case-sensitive, not case-insensitive. -/
theorem evaluation_not_case_insensitive :
    (calculate c7_key c7_student).1 = 0 ∧
    ((simple_evaluation c7_student c7_key).map
      fun r => r.automated_total_marks) = some 0 ∧
    pyLower "a" = pyLower "A" ∧ "a" ≠ "A" := by
  decide

/-! ### Claim C5 -/

/-- Claim C5 (code bug): `create_log_entry` stores the first
`datetime.utcnow()` result in the entry's `timestamp` field but hashes a
second, later `utcnow()` result into `event_hash`.  When the two calls
return different strings (here `"T1"` and `"T2"`), the entry violates the
claimed invariant and `verify_log_integrity` rejects the log produced by
`append_log` instead of returning ok. -/
theorem audit_hash_uses_second_timestamp :
    (c5_log.entries.map fun e => e.timestamp) = ["T1"] ∧
    (c5_log.entries.map fun e => e.event_hash) = ["s1|scan_block_created|d|T2"] ∧
    c5hash c5_core = "s1|scan_block_created|d|T1" ∧
    verify_log_integrity c5hash (some c5_log) =
      (false, some "Invalid hash for log entry id1") := by
  decide

/-! ### Claim C3 -/

/-- Claim C3 (amended): `is_fully_signed()` returns true if and only if the
collected count reaches `required_signatures` and each of the three expected
signer types is present with status approved.  It never compares any
`signed_data_hash` against the payload's canonical hash — that comparison
exists only in `verify_signature`, which `is_fully_signed` does not call. -/
theorem is_fully_signed_iff_presence_and_approval {D : Type}
    (e : MultiSignatureEngine D) :
    is_fully_signed e = true ↔
      (e.required_signatures ≤ e.signatures.length ∧
        ∀ t ∈ expected_signers, ∃ s, e.signatures.lookup t.value = some s ∧
          s.status = SignatureStatus.approved) := by
  unfold is_fully_signed
  split_ifs with h
  · constructor
    · intro hc; exact absurd hc (by simp)
    · rintro ⟨hge, _⟩; omega
  · rw [List.all_eq_true]
    constructor
    · intro hall
      refine ⟨by omega, ?_⟩
      intro t ht
      have hmem := hall t ht
      cases hl : e.signatures.lookup t.value with
      | none => rw [hl] at hmem; simp at hmem
      | some s =>
        rw [hl] at hmem
        exact ⟨s, rfl, by simpa [beq_iff_eq] using hmem⟩
    · rintro ⟨_, hs⟩
      intro t ht
      obtain ⟨s, hl, happ⟩ := hs t ht
      rw [hl]
      simp [happ]

/-- Counterexample to C3 as stated: three approved signatures over
`"other-payload"` (hashes `"other-payload"`), all different from the
canonical hash of the verification payload `"payload"`, reached through
`add_signature` — yet `is_fully_signed()` returns true. -/
theorem fully_signed_despite_hash_mismatch :
    add_signature c3settings id c3e0 SignerType.ai_verifier "k1" "other-payload" =
      Except.ok (c3e1, c3sig SignerType.ai_verifier "k1") ∧
    add_signature c3settings id c3e1 SignerType.human_verifier "k2" "other-payload" =
      Except.ok (c3e2, c3sig SignerType.human_verifier "k2") ∧
    add_signature c3settings id c3e2 SignerType.admin_controller "k3" "other-payload" =
      Except.ok (c3e3, c3sig SignerType.admin_controller "k3") ∧
    is_fully_signed c3e3 = true ∧
    (c3e3.signatures.all fun kv => kv.2.signed_data_hash == id "payload") = false := by
  decide

/-! ### Helper lemma for the route claims -/

/-- Appending a matching row makes `find?` succeed. -/
theorem find?_isSome_append_right {α : Type} (p : α → Bool) (l : List α) (a : α)
    (ha : p a = true) : ((l ++ [a]).find? p).isSome = true := by
  induction l with
  | nil => simp [List.find?, ha]
  | cons x xs ih =>
    simp only [List.cons_append, List.find?]
    cases hx : p x
    · exact ih
    · rfl

/-! ### Claim C2 -/

/-- Claim C2 (amended): when the relational persistence step fails after the
block has been mined and appended, only the database transaction is rolled
back (`db.rollback()`), and the handler re-raises HTTP 500; nothing removes
the block from the in-memory chain, so the chain tip after the failed
command is the newly mined block — not the tip from before the command.
This holds for both `createScan` and `createVerify`. -/
theorem persistence_failure_keeps_chain_append (H : BlockData → String)
    (sha : String → String) (hash_dict : List (String × String) → String)
    (hash_file : String → String) (db_error : String) (fuel : Nat) (now : String)
    (db : Db) (bc : Blockchain) (request : ScanBlockCreate)
    (bcM : Blockchain) (block : Block)
    (h1 : (db.sheets.find? fun s => s.sheet_id == request.sheet_id) = none)
    (h2 : ∀ fc ∈ request.file_content, hash_file fc = request.file_hash)
    (h3 : create_block H sha bc "scan" (scan_block_data request now) true now fuel =
      some (bcM, block)) :
    (create_scan_block H sha hash_dict hash_file false db_error fuel now db bc request =
      some (db, bcM, ApiResult.httpError 500 db_error) ∧
     bcM.chain = bc.chain ++ [block] ∧
     bcM.chain.getLast? = some block) ∧
    (∀ (D : Type) (hash_dictD : D → String)
       (hash_dictL : List (String × String) → String) (settings : Settings)
       (repr_data sigs_repr proof_repr : String) (dbv : Db) (bcv : Blockchain)
       (requestv : VerificationBlockCreate D) (sheet : SheetRow)
       (eng : MultiSignatureEngine D) (sig_rows : List SigRow)
       (bc2v : Blockchain) (blockv : Block),
      (dbv.sheets.find? fun s => s.sheet_id == requestv.sheet_id) = some sheet →
      processSignatures settings hash_dictD requestv.sheet_id
        requestv.verification_data requestv.signatures {} [] =
          Except.ok (eng, sig_rows) →
      is_fully_signed eng = true →
      create_block H sha bcv "verify"
        (verify_block_data requestv.sheet_id repr_data sigs_repr proof_repr
          requestv.metadata now) true now fuel = some (bc2v, blockv) →
      create_verification_block H sha hash_dictD hash_dictL settings repr_data
        sigs_repr proof_repr false db_error fuel now dbv bcv requestv =
          some (dbv, bc2v, ApiResult.httpError 500 db_error) ∧
      bc2v.chain = bcv.chain ++ [blockv]) := by
  constructor
  · obtain ⟨latest, hl, hm, hbcM⟩ :=
      create_block_mine_inv H sha bc "scan" (scan_block_data request now) now fuel
        bcM block h3
    refine ⟨?_, ?_, ?_⟩
    · simp only [create_scan_block, h1, Option.isSome_none, Bool.false_eq_true,
        if_false]
      cases hfc : request.file_content with
      | none => simp [h3]
      | some fc =>
        have hfh : hash_file fc = request.file_hash := h2 fc (by simp [hfc])
        simp [hfh, h3]
    · rw [hbcM]
    · rw [hbcM]
      exact List.getLast?_concat _
  · intro D hash_dictD hash_dictL settings repr_data sigs_repr proof_repr dbv bcv
      requestv sheet eng sig_rows bc2v blockv hv1 hv2 hv3 hv4
    obtain ⟨latest, hl, hm, hbc2v⟩ :=
      create_block_mine_inv H sha bcv "verify"
        (verify_block_data requestv.sheet_id repr_data sigs_repr proof_repr
          requestv.metadata now) now fuel bc2v blockv hv4
    refine ⟨?_, ?_⟩
    · simp only [create_verification_block, hv1, hv2, hv3, hv4]
      simp
    · rw [hbc2v]

/-- Witness for C2 at a concrete failing persistence step: the database is
unchanged but the chain has grown by the mined block. -/
theorem persistence_failure_keeps_chain_append_witness :
    create_scan_block c9H c9sha c24hash_dict c24hash_file false "db down" 1 "t1"
      {} c9bc c24_req = some ({}, c24_bc1, ApiResult.httpError 500 "db down") ∧
    c24_bc1.chain = c9bc.chain ++ [c24_block] ∧
    c24_bc1.chain.getLast? = some c24_block :=
  (persistence_failure_keeps_chain_append c9H c9sha c24hash_dict c24hash_file
    "db down" 1 "t1" {} c9bc c24_req c24_bc1 c24_block (by decide)
    (by intro fc hfc; simp [c24_req] at hfc) (by decide)).1

/-- Counterexample to C2 as stated: a concrete `createScan` whose
persistence step fails; the in-memory append is not rolled back and the
chain tip after the failed command differs from the tip before it. -/
theorem persistence_failure_chain_tip_changes :
    create_scan_block c9H c9sha c24hash_dict c24hash_file false "db down" 1 "t1"
      {} c9bc c24_req = some ({}, c24_bc1, ApiResult.httpError 500 "db down") ∧
    c24_bc1.chain.getLast? ≠ c9bc.chain.getLast? := by
  decide

/-! ### Claim C4 -/

/-- Claim C4 (amended): `createScan` keys idempotency on nothing — a second
call with the same `sheet_id` returns HTTP 400 `Sheet already exists`
whether the payload is identical or divergent, and never returns the
existing block's hash; the sheet-row count stays at one (the first call
inserts exactly one row, the duplicate call inserts nothing). -/
theorem duplicate_scan_returns_conflict (H : BlockData → String)
    (sha : String → String) (hash_dict : List (String × String) → String)
    (hash_file : String → String) (persist_ok : Bool) (db_error : String)
    (fuel : Nat) (now : String) (db : Db) (bc : Blockchain)
    (request : ScanBlockCreate) :
    ((db.sheets.find? fun s => s.sheet_id == request.sheet_id).isSome = true →
      create_scan_block H sha hash_dict hash_file persist_ok db_error fuel now
        db bc request = some (db, bc, ApiResult.httpError 400 "Sheet already exists")) ∧
    (∀ (db2 : Db) (bc2 : Blockchain) (resp : ScanBlockResponse),
      (db.sheets.find? fun s => s.sheet_id == request.sheet_id) = none →
      create_scan_block H sha hash_dict hash_file true db_error fuel now
        db bc request = some (db2, bc2, ApiResult.success resp) →
      db2.sheets.length = db.sheets.length + 1 ∧
      (db2.sheets.find? fun s => s.sheet_id == request.sheet_id).isSome = true) := by
  constructor
  · intro h
    simp only [create_scan_block, h, if_true]
  · intro db2 bc2 resp h1 hcall
    simp only [create_scan_block, h1, Option.isSome_none, Bool.false_eq_true,
      if_false] at hcall
    split at hcall
    · simp at hcall
    · split at hcall
      · exact Option.noConfusion hcall
      · simp only [if_true, Option.some_inj, Prod.mk.injEq] at hcall
        obtain ⟨hdb2, -, -⟩ := hcall
        subst hdb2
        refine ⟨by simp, ?_⟩
        exact find?_isSome_append_right _ db.sheets _ (by simp)

/-- Witness for C4: the duplicate call on the state left by the first call
returns the conflict error. -/
theorem duplicate_scan_returns_conflict_witness :
    create_scan_block c9H c9sha c24hash_dict c24hash_file true "db down" 1 "t1"
      c4_db1 c24_bc1 c24_req =
      some (c4_db1, c24_bc1, ApiResult.httpError 400 "Sheet already exists") :=
  (duplicate_scan_returns_conflict c9H c9sha c24hash_dict c24hash_file true
    "db down" 1 "t1" c4_db1 c24_bc1 c24_req).1 (by decide)

/-- Counterexample to C4 as stated: calling `createScan` twice with a
byte-identical payload — the first call succeeds, the second returns HTTP
400 `Sheet already exists` instead of the existing block's hash.  Exactly
one sheet row exists (that part of the claim holds). -/
theorem second_identical_scan_not_idempotent :
    create_scan_block c9H c9sha c24hash_dict c24hash_file true "db down" 1 "t1"
      {} c9bc c24_req = some (c4_db1, c24_bc1, ApiResult.success c4_resp) ∧
    create_scan_block c9H c9sha c24hash_dict c24hash_file true "db down" 1 "t1"
      c4_db1 c24_bc1 c24_req =
      some (c4_db1, c24_bc1, ApiResult.httpError 400 "Sheet already exists") ∧
    c4_db1.sheets.length = 1 := by
  decide

/-! ### Claim C6 -/

/-- Claim C6 (amended): `create_verification_block` checks only that the
sheet exists (404 otherwise) and never reads `sheet.status`: for any
existing sheet — whatever its lifecycle status — a request carrying a full
valid signature set mines a verify block, sets the sheet's status to
`verified` and succeeds.  No `invalid_state` check exists in this handler
(unlike `createResult`, which requires `verified`, and `createRecheck`,
which requires `completed`). -/
theorem create_verify_ignores_sheet_status {D : Type} (H : BlockData → String)
    (sha : String → String) (hash_dictD : D → String)
    (hash_dictL : List (String × String) → String) (settings : Settings)
    (repr_data sigs_repr proof_repr db_error : String) (fuel : Nat) (now : String)
    (db : Db) (bc : Blockchain) (request : VerificationBlockCreate D)
    (sheet : SheetRow) (eng : MultiSignatureEngine D) (sig_rows : List SigRow)
    (bc2 : Blockchain) (block : Block)
    (h1 : (db.sheets.find? fun s => s.sheet_id == request.sheet_id) = some sheet)
    (h2 : processSignatures settings hash_dictD request.sheet_id
      request.verification_data request.signatures {} [] = Except.ok (eng, sig_rows))
    (h3 : is_fully_signed eng = true)
    (h4 : create_block H sha bc "verify" (verify_block_data request.sheet_id
      repr_data sigs_repr proof_repr request.metadata now) true now fuel =
      some (bc2, block)) :
    create_verification_block H sha hash_dictD hash_dictL settings repr_data
      sigs_repr proof_repr true db_error fuel now db bc request =
      some (verify_success_db hash_dictL db request.sheet_id
          (verify_block_data request.sheet_id repr_data sigs_repr proof_repr
            request.metadata now) sig_rows block,
        bc2,
        ApiResult.success (verify_success_response hash_dictL request.sheet_id
          (verify_block_data request.sheet_id repr_data sigs_repr proof_repr
            request.metadata now) sig_rows block)) ∧
    ((verify_success_db hash_dictL db request.sheet_id
        (verify_block_data request.sheet_id repr_data sigs_repr proof_repr
          request.metadata now) sig_rows block).sheets.find?
      fun s => s.sheet_id == request.sheet_id).map (fun s => s.status) =
        some "verified" ∧
    bc2.chain = bc.chain ++ [block] := by
  refine ⟨?_, ?_, ?_⟩
  · simp only [create_verification_block, h1, h2, h3, h4]
    simp
  · have hps : ((fun (s : SheetRow) => s.sheet_id == request.sheet_id) ∘
        fun s => if s.sheet_id == request.sheet_id then
          { s with
            status := "verified",
            verify_hash := some (hash_dictL (verify_block_data request.sheet_id
              repr_data sigs_repr proof_repr request.metadata now)) }
        else s) = fun s => s.sheet_id == request.sheet_id := by
      funext s
      simp only [Function.comp_apply]
      split <;> rfl
    have hpsheet := List.find?_some h1
    simp only [verify_success_db]
    rw [List.find?_map, hps, h1]
    simp [beq_iff_eq.mp hpsheet]
  · obtain ⟨latest, hl, hm, hbc2⟩ :=
      create_block_mine_inv H sha bc "verify"
        (verify_block_data request.sheet_id repr_data sigs_repr proof_repr
          request.metadata now) now fuel bc2 block h4
    rw [hbc2]

/-- Witness for C6 at a concrete sheet of status `scanned`. -/
theorem create_verify_ignores_sheet_status_witness :
    create_verification_block c9H c9sha id c6vh c3settings "rd" "sr" "pr" true
      "db down" 1 "t1" c6_db c9bc c6_req =
      some (c6_db2, c6_bc2, ApiResult.success c6_resp) :=
  (create_verify_ignores_sheet_status c9H c9sha id c6vh c3settings "rd" "sr"
    "pr" "db down" 1 "t1" c6_db c9bc c6_req c6_sheet c6_eng c6_rows c6_bc2
    c6_block (by decide) (by decide) (by decide) (by decide)).1

/-- Counterexample to C6 as stated: `createVerify` on a sheet whose status
is `scanned` (not the required pre-state `scored`) succeeds, appends a
verify block and flips the sheet to `verified`, instead of failing with a
domain error and leaving state unchanged. -/
theorem create_verify_accepts_wrong_status :
    c6_sheet.status = "scanned" ∧
    ¬ c6_sheet.status = "scored" ∧
    create_verification_block c9H c9sha id c6vh c3settings "rd" "sr" "pr" true
      "db down" 1 "t1" c6_db c9bc c6_req =
      some (c6_db2, c6_bc2, ApiResult.success c6_resp) ∧
    (c6_db2.sheets.map fun s => s.status) = ["verified"] ∧
    c6_bc2.chain.length = c9bc.chain.length + 1 := by
  decide

end Examnyx
